import Mathlib

/-!
Shallow embedding of the llm-map query-to-result pipeline
(app/config.py, app/models.py, app/services/llm_service.py,
app/services/maps_service.py, app/main.py).

Modelling conventions:
* JSON numbers and coordinates are rationals (exact values of the decoded
  payload); the trigonometric Haversine computation is carried out over ℝ,
  mirroring Python float math symbolically.
* Each outbound HTTP round trip is an environment input: either the decoded
  response body, or an exception message (transport error, HTTP status
  error, JSON decode error) as produced by the Python client library.
* Python `str(e)` diagnostic texts are modelled by the environment-supplied
  message (for exceptions raised outside the function) and by fixed strings
  for exceptions the function itself raises.
-/

/-- Configuration record (app/config.py, class Settings). Only the fields the
pipeline reads are modelled; all are read-only process configuration. -/
structure Settings where
  GOOGLE_MAPS_API_KEY : String
  MAX_LOCATIONS_RETURNED : Nat
  MAPS_SEARCH_RADIUS : Int
deriving Repr

/-- A latitude/longitude pair, as in the dicts `{"lat": ..., "lng": ...}`
used for `user_location` and `map_center` (app/models.py). -/
structure Coord where
  lat : ℚ
  lng : ℚ
deriving Repr, DecidableEq

/-- JSON values, the result of Python `json.loads` / `response.json()`. -/
inductive Json where
  | null
  | bool (b : Bool)
  | num (q : ℚ)
  | str (s : String)
  | arr (elems : List Json)
  | obj (fields : List (String × Json))

/-- Character-list prefix test (helper for the substring predicate). -/
def isPrefixB : List Char → List Char → Bool
  | [], _ => true
  | _ :: _, [] => false
  | a :: as, b :: bs => a == b && isPrefixB as bs

/-- Occurrence of `pat` as a contiguous run inside `l`
(helper for Python `sub in s` on strings). -/
def occursIn (pat : List Char) : List Char → Bool
  | [] => isPrefixB pat []
  | l@(_ :: t) => isPrefixB pat l || occursIn pat t

/-- Python `pat in s` for strings: contiguous substring test. -/
def strHasSub (s pat : String) : Bool :=
  occursIn pat.toList s.toList

/-- Python `field in d` for a dict: key membership (llm_service.py line 57). -/
def hasKey (kvs : List (String × Json)) (field : String) : Bool :=
  kvs.any fun kv => kv.1 == field

/-- Python `field in x` on a decoded JSON value: key membership for dicts,
element equality for lists (a string only equals string elements), substring
test for strings, and a TypeError for non-iterable values. -/
def pyIn (field : String) (j : Json) : Except String Bool :=
  match j with
  | .obj kvs => .ok (hasKey kvs field)
  | .arr xs => .ok (xs.any fun x => match x with | .str t => t == field | _ => false)
  | .str s => .ok (strHasSub s field)
  | _ => .error "argument is not iterable"

/-- Outcome of the model-reply phase of `extract_location_intent`: either an
exception from the transport/HTTP layer or from indexing
`result["message"]["content"]` (any non-JSONDecodeError exception), or a
`json.JSONDecodeError` while decoding, or the decoded JSON value. -/
inductive LLMReply where
  | netError (msg : String)
  | badJson (msg : String)
  | parsed (j : Json)

/-- The required-field names checked by the extractor
(llm_service.py line 56). -/
def required_fields : List String :=
  ["search_term", "location", "query_type", "formatted_query"]

/-- The fallback intent dict built in both `except` branches of
`extract_location_intent` (llm_service.py lines 64-78). -/
def fallbackIntent (user_query err : String) : Json :=
  .obj [("search_term", .str user_query),
        ("location", .str "near me"),
        ("query_type", .str "search"),
        ("formatted_query", .str user_query),
        ("error", .str err)]

/-- LLMService.extract_location_intent (llm_service.py lines 10-78).
The provider round trip is the `reply` input. On the success path the decoded
value is checked with `all(field in extracted_data for field in
required_fields)` (short-circuit, and a TypeError on non-iterable values);
a failed check raises ValueError, caught by `except Exception` with message
prefix "LLM service error: "; a JSONDecodeError is caught separately with
prefix "JSON parsing error: ". -/
def extract_location_intent (user_query : String) (reply : LLMReply) : Json :=
  match reply with
  | .netError msg => fallbackIntent user_query ("LLM service error: " ++ msg)
  | .badJson msg => fallbackIntent user_query ("JSON parsing error: " ++ msg)
  | .parsed extracted_data =>
    match required_fields.allM (fun field => pyIn field extracted_data) with
    | .error msg => fallbackIntent user_query ("LLM service error: " ++ msg)
    | .ok false =>
      fallbackIntent user_query
        "LLM service error: Missing required fields in LLM response"
    | .ok true => extracted_data

/-- Outcome of one outbound HTTP round trip of the maps service: either the
decoded response body, or the `str(e)` of an exception raised by the client
call, `raise_for_status()`, or `response.json()`. -/
inductive HttpOutcome (α : Type) where
  | exc (msg : String)
  | body (data : α)

/-- One raw place of the Places text-search payload. Fields read with
`place.get(...)` are optional; `geometry` stands for
`place["geometry"]["location"]`, whose absence raises a KeyError.
`opening_hours_weekday_text` stands for the composite
`place.get("opening_hours", {}).get("weekday_text")`. -/
structure RawPlace where
  geometry : Option Coord
  name : Option String
  formatted_address : Option String
  place_id : Option String
  rating : Option ℚ
  opening_hours_weekday_text : Option (List String)
  international_phone_number : Option String
  website : Option String
  price_level : Option Int

/-- Decoded Places text-search response body (`status` plus
`data.get("results", [])`). -/
structure PlacesData where
  status : String
  results : List RawPlace

/-- LocationInfo (app/models.py lines 8-20). `distance` is the real-valued
Haversine distance in meters, absent when no user location was supplied. -/
structure LocationInfo where
  name : String
  address : String
  place_id : String
  rating : Option ℚ
  maps_url : String
  lat : ℚ
  lng : ℚ
  distance : Option ℝ
  opening_hours : Option (List String)
  phone_number : Option String
  website : Option String
  price_level : Option Int

/-- Decimal rendering of a coordinate inside an f-string; Python float repr
is abstracted as the canonical rational rendering. -/
def floatStr (x : ℚ) : String := toString x

/-- GoogleMapsService._generate_maps_url (maps_service.py lines 81-86):
`if place_id:` takes the place-id URL for a non-empty id, else the
coordinate URL at zoom 15. -/
def _generate_maps_url (place_id : String) (lat lng : ℚ) : String :=
  if place_id ≠ "" then
    "https://www.google.com/maps/place/?q=place_id:" ++ place_id
  else
    "https://www.google.com/maps/@" ++ floatStr lat ++ "," ++ floatStr lng ++ ",15z"

/-- Python `math.radians`: degrees to radians. -/
noncomputable def radians (x : ℝ) : ℝ := x * Real.pi / 180

/-- Python `math.atan2 y x` (two-argument arctangent, C convention;
floating-point signed zeros are not distinguished). -/
noncomputable def atan2 (y x : ℝ) : ℝ :=
  if 0 < x then Real.arctan (y / x)
  else if x < 0 then
    (if 0 ≤ y then Real.arctan (y / x) + Real.pi else Real.arctan (y / x) - Real.pi)
  else if 0 < y then Real.pi / 2
  else if y < 0 then -(Real.pi / 2)
  else 0

/-- GoogleMapsService._calculate_distance (maps_service.py lines 117-131):
Haversine distance in meters, Earth radius 6371000. -/
noncomputable def _calculate_distance (lat1 lng1 lat2 lng2 : ℝ) : ℝ :=
  let R : ℝ := 6371000
  let lat1_rad := radians lat1
  let lat2_rad := radians lat2
  let delta_lat := radians (lat2 - lat1)
  let delta_lng := radians (lng2 - lng1)
  let a := Real.sin (delta_lat / 2) * Real.sin (delta_lat / 2) +
    Real.cos lat1_rad * Real.cos lat2_rad *
    Real.sin (delta_lng / 2) * Real.sin (delta_lng / 2)
  let c := 2 * atan2 (Real.sqrt a) (Real.sqrt (1 - a))
  R * c

/-- The per-place body of the result loop of search_places (maps_service.py
lines 44-74): a missing `geometry.location` raises a KeyError (modelled by
the fixed diagnostic "KeyError: geometry"); otherwise the LocationInfo is
built, with `distance` computed iff `user_location` is supplied. -/
noncomputable def process_place (user_location : Option Coord) (place : RawPlace) :
    Except String LocationInfo :=
  match place.geometry with
  | none => .error "KeyError: geometry"
  | some g =>
    let distance : Option ℝ :=
      match user_location with
      | some u => some (_calculate_distance u.lat u.lng g.lat g.lng)
      | none => none
    .ok { name := place.name.getD "Unknown"
          address := place.formatted_address.getD "Address not available"
          place_id := place.place_id.getD ""
          rating := place.rating
          lat := g.lat
          lng := g.lng
          distance := distance
          opening_hours := place.opening_hours_weekday_text
          phone_number := place.international_phone_number
          website := place.website
          price_level := place.price_level
          maps_url := _generate_maps_url (place.place_id.getD "") g.lat g.lng }

/-- The result loop of search_places: sequential processing appending to
`locations`, aborted by the first exception. -/
noncomputable def process_places (user_location : Option Coord) :
    List RawPlace → Except String (List LocationInfo)
  | [] => .ok []
  | p :: rest =>
    match process_place user_location p with
    | .error e => .error e
    | .ok li =>
      match process_places user_location rest with
      | .error e => .error e
      | .ok lis => .ok (li :: lis)

/-- GoogleMapsService.search_places (maps_service.py lines 12-79). A non-OK
provider status raises `Exception("Google Places API error: <status>")`
inside the `try`; every exception is re-raised wrapped as
`Exception("Error searching places: <str(e)>")`. Request construction
(URL, query text, key, bias parameters) is not observable in the model:
the provider response is the `resp` input. -/
noncomputable def search_places (s : Settings) (user_location : Option Coord)
    (resp : HttpOutcome PlacesData) : Except String (List LocationInfo) :=
  match resp with
  | .exc msg => .error ("Error searching places: " ++ msg)
  | .body data =>
    if data.status ≠ "OK" then
      .error ("Error searching places: " ++ ("Google Places API error: " ++ data.status))
    else
      match process_places user_location (data.results.take s.MAX_LOCATIONS_RETURNED) with
      | .error msg => .error ("Error searching places: " ++ msg)
      | .ok locations => .ok locations

/-- A `{"text": ...}` field of a directions leg. -/
structure TextField where
  text : String

/-- One leg of a directions route (`leg["duration"]["text"]`,
`leg["distance"]["text"]`). -/
structure Leg where
  duration : TextField
  distance : TextField

/-- One route of the directions payload. -/
structure Route where
  legs : List Leg

/-- Decoded directions response body: `status` plus `data.get("routes")`
(`none` when the key is absent). -/
structure DirectionsData where
  status : String
  routes : Option (List Route)

/-- DirectionsResponse (app/models.py lines 27-32). -/
structure DirectionsResponse where
  success : Bool
  message : String
  routes : Option (List Route)
  duration : Option String
  distance : Option String

/-- GoogleMapsService.get_directions (maps_service.py lines 133-178).
`if not data.get("routes")` treats an absent key and an empty list alike;
`route["legs"][0]` on an empty legs list raises an IndexError, caught by the
catch-all with message "Error getting directions: list index out of range".
Request construction (origin, destination, lower-cased mode, key) is not
observable in the model: the provider response is the `resp` input. -/
def get_directions (resp : HttpOutcome DirectionsData) : DirectionsResponse :=
  match resp with
  | .exc msg =>
    { success := false, message := "Error getting directions: " ++ msg,
      routes := none, duration := none, distance := none }
  | .body data =>
    if data.status ≠ "OK" then
      { success := false, message := "Directions API error: " ++ data.status,
        routes := none, duration := none, distance := none }
    else
      match data.routes with
      | none =>
        { success := false, message := "No routes found",
          routes := none, duration := none, distance := none }
      | some [] =>
        { success := false, message := "No routes found",
          routes := none, duration := none, distance := none }
      | some (route :: rest) =>
        match route.legs with
        | [] =>
          { success := false,
            message := "Error getting directions: list index out of range",
            routes := none, duration := none, distance := none }
        | leg :: _ =>
          { success := true, message := "Directions found",
            routes := some (route :: rest),
            duration := some leg.duration.text,
            distance := some leg.distance.text }

/-- LocationResponse (app/models.py lines 34-40). -/
structure LocationResponse where
  success : Bool
  message : String
  locations : List LocationInfo
  extracted_info : Option Json
  map_center : Option Coord
  search_radius : Option Int

/-- Python `x.get(key, default)` on a decoded JSON value: only dicts have a
`.get` attribute; any other value raises an AttributeError. -/
def pyGet (j : Json) (key : String) (dflt : Json) : Except String Json :=
  match j with
  | .obj kvs => .ok (((kvs.find? fun kv => kv.1 == key).map Prod.snd).getD dflt)
  | _ => .error "object has no attribute get"

/-- The mean-of-results map center (main.py lines 85-89): arithmetic mean of
all result latitudes and longitudes. -/
def meanCenter (locations : List LocationInfo) : Coord :=
  { lat := (locations.map LocationInfo.lat).sum / locations.length,
    lng := (locations.map LocationInfo.lng).sum / locations.length }

/-- search_locations, the /search endpoint body (main.py lines 65-116).
Environment inputs: the model reply consumed by `extract_location_intent`
and the Places provider response consumed by `search_places`. A raised
exception is caught at the boundary and converted to
`HTTPException(500, "Error processing your request: <str(e)>")`, modelled
as the `Except.error` case carrying the detail string; `Except.ok` carries
the LocationResponse. The `formatted_query` value (a lookup that raises an
AttributeError when the extracted value is not a dict) is forwarded to the
provider, whose response is the `maps` input. -/
noncomputable def search_locations (s : Settings) (query : String)
    (user_location : Option Coord) (llm : LLMReply)
    (maps : HttpOutcome PlacesData) : Except String LocationResponse :=
  let extracted_info := extract_location_intent query llm
  match pyGet extracted_info "formatted_query" (.str query) with
  | .error msg => .error ("Error processing your request: " ++ msg)
  | .ok _formatted_query =>
    match search_places s user_location maps with
    | .error msg => .error ("Error processing your request: " ++ msg)
    | .ok locations =>
      let map_center : Option Coord :=
        if locations.isEmpty then user_location
        else some (meanCenter locations)
      if locations.isEmpty then
        .ok { success := false,
              message := "No locations found for your query",
              locations := [],
              extracted_info := some extracted_info,
              map_center := map_center,
              search_radius := none }
      else
        .ok { success := true,
              message := "Found " ++ toString locations.length ++ " location(s)",
              locations := locations,
              extracted_info := some extracted_info,
              map_center := map_center,
              search_radius := some s.MAPS_SEARCH_RADIUS }

/-- The failure or success text a /search caller sees: the HTTPException
detail on the error path, the LocationResponse message otherwise. -/
noncomputable def surfaced_message (s : Settings) (query : String)
    (user_location : Option Coord) (llm : LLMReply)
    (maps : HttpOutcome PlacesData) : String :=
  match search_locations s query user_location llm maps with
  | .error msg => msg
  | .ok resp => resp.message

/-! ### Geo Math lemmas -/

/-- Haversine distance from a point to itself is zero. -/
lemma haversine_self (lat lng : ℝ) : _calculate_distance lat lng lat lng = 0 := by
  simp [_calculate_distance, radians, atan2, Real.arctan_zero]

/-- The half-angle sine flips sign when the difference is swapped. -/
lemma hsin_swap (x y : ℝ) :
    Real.sin (radians (x - y) / 2) = -Real.sin (radians (y - x) / 2) := by
  have h : radians (x - y) / 2 = -(radians (y - x) / 2) := by
    simp only [radians]; ring
  rw [h, Real.sin_neg]

/-- Haversine distance is symmetric in its two points. -/
lemma haversine_symm (lat1 lng1 lat2 lng2 : ℝ) :
    _calculate_distance lat1 lng1 lat2 lng2 = _calculate_distance lat2 lng2 lat1 lng1 := by
  simp only [_calculate_distance]
  congr 1
  congr 1
  congr 1 <;> (congr 1; rw [hsin_swap lat2 lat1, hsin_swap lng2 lng1]; ring)

/-- Closed form of the Haversine distance across one degree of longitude at
the equator. -/
lemma haversine_equator : _calculate_distance 0 0 0 1 = 6371000 * (Real.pi / 180) := by
  have hpi := Real.pi_pos
  have hs0 : 0 ≤ Real.sin (Real.pi / 360) :=
    Real.sin_nonneg_of_nonneg_of_le_pi (by linarith) (by linarith)
  have hc0 : 0 < Real.cos (Real.pi / 360) := by
    apply Real.cos_pos_of_mem_Ioo
    constructor <;> [linarith; linarith]
  simp only [_calculate_distance, radians]
  norm_num [Real.sin_zero, Real.cos_zero]
  rw [show Real.pi / 180 / 2 = Real.pi / 360 by ring]
  rw [Real.sqrt_mul_self hs0]
  rw [show 1 - Real.sin (Real.pi / 360) * Real.sin (Real.pi / 360) =
      Real.cos (Real.pi / 360) * Real.cos (Real.pi / 360) by
    nlinarith [Real.sin_sq_add_cos_sq (Real.pi / 360)]]
  rw [Real.sqrt_mul_self (le_of_lt hc0)]
  rw [show atan2 (Real.sin (Real.pi / 360)) (Real.cos (Real.pi / 360)) = Real.pi / 360 by
    simp only [atan2, if_pos hc0]
    rw [← Real.tan_eq_sin_div_cos, Real.arctan_tan (by linarith) (by linarith)]]
  ring

/-- The equator distance is within one meter of 111195. -/
lemma haversine_equator_bound : |_calculate_distance 0 0 0 1 - 111195| < 1 := by
  rw [haversine_equator, abs_lt]
  constructor <;> nlinarith [Real.pi_gt_d6, Real.pi_lt_d6]

/-! ### String and list helper lemmas -/

/-- Every character list is a prefix of itself. -/
lemma isPrefixB_self (l : List Char) : isPrefixB l l = true := by
  induction l with
  | nil => rfl
  | cons a as ih => simp [isPrefixB, ih]

/-- A character list occurs at the end of any extension of itself. -/
lemma occursIn_append (l pat : List Char) : occursIn pat (l ++ pat) = true := by
  induction l with
  | nil => cases pat <;> simp [occursIn, isPrefixB_self, isPrefixB]
  | cons c t ih => simp [occursIn, ih]

/-- A string contains any of its suffixes as a substring. -/
lemma strHasSub_append (a b : String) : strHasSub (a ++ b) b = true := by
  have h : (a ++ b).toList = a.toList ++ b.toList := by
    simp [String.toList]
  rw [strHasSub, h]
  exact occursIn_append a.toList b.toList

/-- The only exception process_place raises is the missing-geometry
KeyError. -/
lemma process_place_error (u : Option Coord) (p : RawPlace) (e : String)
    (h : process_place u p = .error e) : e = "KeyError: geometry" := by
  cases hg : p.geometry with
  | none => simp [process_place, hg] at h; exact h.symm
  | some g => simp [process_place, hg] at h

/-- A record produced with a user location carries the Haversine distance
from that location to the record's own coordinates. -/
lemma process_place_distance_some (u : Coord) (p : RawPlace) (loc : LocationInfo)
    (h : process_place (some u) p = .ok loc) :
    loc.distance = some (_calculate_distance u.lat u.lng loc.lat loc.lng) := by
  cases hg : p.geometry with
  | none => simp [process_place, hg] at h
  | some g =>
    simp only [process_place, hg] at h
    injection h with h
    rw [← h]

/-- A record produced without a user location has no distance. -/
lemma process_place_distance_none (p : RawPlace) (loc : LocationInfo)
    (h : process_place none p = .ok loc) : loc.distance = none := by
  cases hg : p.geometry with
  | none => simp [process_place, hg] at h
  | some g =>
    simp only [process_place, hg] at h
    injection h with h
    rw [← h]

/-- A successful result loop preserves length and converts the input places
pointwise, in order. -/
lemma process_places_ok (u : Option Coord) :
    ∀ {l : List RawPlace} {locs : List LocationInfo},
      process_places u l = .ok locs →
      locs.length = l.length ∧
      ∀ i (hl : i < l.length) (hi : i < locs.length),
        process_place u (l.get ⟨i, hl⟩) = .ok (locs.get ⟨i, hi⟩) := by
  intro l
  induction l with
  | nil =>
    intro locs h
    simp only [process_places] at h
    injection h with h
    subst h
    exact ⟨rfl, fun i hl hi => absurd hl (by simp)⟩
  | cons p rest ih =>
    intro locs h
    simp only [process_places] at h
    cases hp : process_place u p with
    | error e => rw [hp] at h; cases h
    | ok li =>
      rw [hp] at h
      cases hr : process_places u rest with
      | error e => rw [hr] at h; cases h
      | ok lis =>
        rw [hr] at h
        injection h with h
        subst h
        obtain ⟨hlen, hget⟩ := ih hr
        refine ⟨by simp [hlen], ?_⟩
        intro i hl hi
        match i with
        | 0 => simpa using hp
        | n + 1 =>
          simp only [List.get_cons_succ]
          exact hget n (by simpa using hl) (by simpa using hi)

/-- If any place of the batch lacks its geometry, the whole loop fails with
the missing-geometry KeyError. -/
lemma process_places_error_of_mem (u : Option Coord) (p : RawPlace)
    {l : List RawPlace} (hp : p ∈ l) (hg : p.geometry = none) :
    process_places u l = .error "KeyError: geometry" := by
  induction l with
  | nil => cases hp
  | cons q rest ih =>
    rcases List.mem_cons.mp hp with rfl | hmem
    · simp [process_places, process_place, hg]
    · cases hq : process_place u q with
      | error e =>
        have he := process_place_error u q e hq
        subst he
        simp [process_places, hq]
      | ok li => simp [process_places, hq, ih hmem]

/-- A successful search_places call means the provider status was OK and the
result loop over the truncated batch succeeded. -/
lemma search_places_ok (s : Settings) (u : Option Coord) (data : PlacesData)
    (locs : List LocationInfo)
    (h : search_places s u (.body data) = .ok locs) :
    data.status = "OK" ∧
    process_places u (data.results.take s.MAX_LOCATIONS_RETURNED) = .ok locs := by
  by_cases hst : data.status = "OK"
  · refine ⟨hst, ?_⟩
    simp only [search_places, hst, ne_eq, not_true_eq_false, if_false] at h
    cases hpr : process_places u (data.results.take s.MAX_LOCATIONS_RETURNED) with
    | error e => rw [hpr] at h; cases h
    | ok l2 => rw [hpr] at h; injection h with h; rw [h]
  · simp only [search_places, hst, ne_eq, not_false_eq_true, if_true] at h
    cases h

/-- C8: the Haversine distance function (Earth radius 6371000 m) is zero on
identical coordinates, symmetric under swapping the two points, and maps two
points one degree of longitude apart at the equator to approximately
111195 meters (within 1 m). -/
theorem claim_C8_haversine :
    (∀ lat lng : ℝ, _calculate_distance lat lng lat lng = 0) ∧
    (∀ lat1 lng1 lat2 lng2 : ℝ,
      _calculate_distance lat1 lng1 lat2 lng2 = _calculate_distance lat2 lng2 lat1 lng1) ∧
    |_calculate_distance 0 0 0 1 - 111195| < 1 :=
  ⟨haversine_self, haversine_symm, haversine_equator_bound⟩

/-- C5: a successful search_places call returns at most
MAX_LOCATIONS_RETURNED records; the length is exactly the minimum of the cap
and the provider's result count (so exactly the cap when the provider
returns more), and the i-th returned record is the conversion of the i-th
provider result, preserving provider order. -/
theorem claim_C5_cap_and_order (s : Settings) (u : Option Coord)
    (data : PlacesData) (locs : List LocationInfo)
    (h : search_places s u (.body data) = .ok locs) :
    locs.length ≤ s.MAX_LOCATIONS_RETURNED ∧
    locs.length = min s.MAX_LOCATIONS_RETURNED data.results.length ∧
    (s.MAX_LOCATIONS_RETURNED < data.results.length →
      locs.length = s.MAX_LOCATIONS_RETURNED) ∧
    (∀ i (hi : i < locs.length), ∃ hj : i < data.results.length,
      process_place u (data.results.get ⟨i, hj⟩) = .ok (locs.get ⟨i, hi⟩)) := by
  obtain ⟨hst, hpr⟩ := search_places_ok s u data locs h
  obtain ⟨hlen, hget⟩ := process_places_ok u hpr
  have hmin : locs.length = min s.MAX_LOCATIONS_RETURNED data.results.length := by
    rw [hlen, List.length_take]
  refine ⟨by omega, hmin, by omega, ?_⟩
  intro i hi
  have hl : i < (data.results.take s.MAX_LOCATIONS_RETURNED).length := by
    rw [← hlen]; exact hi
  have hj : i < data.results.length := by
    rw [List.length_take] at hl; omega
  have hjj : i < s.MAX_LOCATIONS_RETURNED := by
    rw [List.length_take] at hl; omega
  refine ⟨hj, ?_⟩
  rw [List.get_take data.results hj hjj]
  exact hget i hl hi

/-- C6: in a successful search_places call, every returned record carries
the Haversine distance from the supplied user location to the record's own
coordinates, and carries no distance when no user location was supplied. -/
theorem claim_C6_distance_iff_user_location (s : Settings) (uo : Option Coord)
    (data : PlacesData) (locs : List LocationInfo)
    (h : search_places s uo (.body data) = .ok locs) :
    (∀ u : Coord, uo = some u → ∀ loc ∈ locs,
      loc.distance = some (_calculate_distance u.lat u.lng loc.lat loc.lng)) ∧
    (uo = none → ∀ loc ∈ locs, loc.distance = none) := by
  obtain ⟨hst, hpr⟩ := search_places_ok s uo data locs h
  obtain ⟨hlen, hget⟩ := process_places_ok uo hpr
  constructor
  · intro u hu loc hmem
    obtain ⟨⟨i, hi⟩, hloc⟩ := List.mem_iff_get.mp hmem
    have hl : i < (data.results.take s.MAX_LOCATIONS_RETURNED).length := by
      rw [← hlen]; exact hi
    have hp := hget i hl hi
    rw [hu] at hp
    rw [← hloc]
    exact process_place_distance_some u _ _ hp
  · intro hu loc hmem
    obtain ⟨⟨i, hi⟩, hloc⟩ := List.mem_iff_get.mp hmem
    have hl : i < (data.results.take s.MAX_LOCATIONS_RETURNED).length := by
      rw [← hlen]; exact hi
    have hp := hget i hl hi
    rw [hu] at hp
    rw [← hloc]
    exact process_place_distance_none _ _ hp

/-- C10: if any provider result among the truncated batch lacks its
geometry coordinate, search_places does not skip it or return the other
records: the whole call fails with the aggregated "Error searching places"
exception, so the caller never receives a partial list. -/
theorem claim_C10_no_partial_results (s : Settings) (u : Option Coord)
    (data : PlacesData) (p : RawPlace)
    (hst : data.status = "OK")
    (hp : p ∈ data.results.take s.MAX_LOCATIONS_RETURNED)
    (hg : p.geometry = none) :
    search_places s u (.body data) =
      .error ("Error searching places: " ++ "KeyError: geometry") := by
  simp only [search_places, hst, ne_eq, not_true_eq_false, if_false]
  rw [process_places_error_of_mem u p hp hg]

/-- C7: map-link generation returns the canonical place-id URL for a
non-empty place id and the coordinate URL at fixed zoom 15 otherwise. -/
theorem claim_C7_maps_url (place_id : String) (lat lng : ℚ) :
    (place_id ≠ "" → _generate_maps_url place_id lat lng =
      "https://www.google.com/maps/place/?q=place_id:" ++ place_id) ∧
    (place_id = "" → _generate_maps_url place_id lat lng =
      "https://www.google.com/maps/@" ++ floatStr lat ++ "," ++ floatStr lng ++ ",15z") := by
  constructor <;> intro h <;> simp [_generate_maps_url, h]

/-- C2: get_directions is total and never throws: a transport or parsing
exception becomes a success=false response; a non-OK provider status gives
success=false with a message containing that status; an OK status with no
routes gives the "No routes found" message; a first route with at least one
leg gives success=true with that leg's duration and distance texts; a first
route with no legs (an IndexError inside the try) also becomes
success=false. -/
theorem claim_C2_get_directions :
    (∀ msg : String, (get_directions (.exc msg)).success = false ∧
      (get_directions (.exc msg)).message = "Error getting directions: " ++ msg) ∧
    (∀ data : DirectionsData, data.status ≠ "OK" →
      (get_directions (.body data)).success = false ∧
      strHasSub (get_directions (.body data)).message data.status = true) ∧
    (∀ data : DirectionsData, data.status = "OK" →
      data.routes = none ∨ data.routes = some [] →
      (get_directions (.body data)).success = false ∧
      (get_directions (.body data)).message = "No routes found") ∧
    (∀ (data : DirectionsData) (route : Route) (rest : List Route) (leg : Leg)
      (legs2 : List Leg), data.status = "OK" →
      data.routes = some (route :: rest) → route.legs = leg :: legs2 →
      (get_directions (.body data)).success = true ∧
      (get_directions (.body data)).duration = some leg.duration.text ∧
      (get_directions (.body data)).distance = some leg.distance.text) ∧
    (∀ (data : DirectionsData) (route : Route) (rest : List Route),
      data.status = "OK" → data.routes = some (route :: rest) → route.legs = [] →
      (get_directions (.body data)).success = false) := by
  refine ⟨fun msg => ⟨rfl, rfl⟩, ?_, ?_, ?_, ?_⟩
  · intro data hst
    constructor
    · simp [get_directions, hst]
    · simp only [get_directions, hst, ne_eq, not_false_eq_true, if_true]
      exact strHasSub_append "Directions API error: " data.status
  · intro data hst hro
    rcases hro with hro | hro <;>
      simp [get_directions, hst, hro]
  · intro data route rest leg legs2 hst hro hleg
    refine ⟨?_, ?_, ?_⟩ <;> simp [get_directions, hst, hro, hleg]
  · intro data route rest hst hro hleg
    simp [get_directions, hst, hro, hleg]

/-- The field check performed by the extractor on a decoded JSON dict
evaluates without a Python exception, to the conjunction of the key
membership tests. -/
lemma allM_pyIn_obj (kvs : List (String × Json)) :
    required_fields.allM (fun field => pyIn field (.obj kvs)) =
      .ok (required_fields.all fun f => hasKey kvs f) := by
  simp only [required_fields, List.allM, pyIn, List.all]
  cases hasKey kvs "search_term" <;>
    cases hasKey kvs "location" <;>
      cases hasKey kvs "query_type" <;>
        cases hasKey kvs "formatted_query" <;> rfl

/-- C1 (amended): extract_location_intent is total; on a provider error it
returns exactly the fallback intent with an "LLM service error" diagnostic,
on a JSON decode failure the fallback with a "JSON parsing error"
diagnostic, and on a decoded JSON object missing any of the four required
keys the fallback with the missing-fields diagnostic; an object carrying
all four keys is returned unchanged. -/
theorem claim_C1_extract_fallback (q : String) :
    (∀ msg, extract_location_intent q (.netError msg) =
      fallbackIntent q ("LLM service error: " ++ msg)) ∧
    (∀ msg, extract_location_intent q (.badJson msg) =
      fallbackIntent q ("JSON parsing error: " ++ msg)) ∧
    (∀ kvs, (required_fields.all fun f => hasKey kvs f) = false →
      extract_location_intent q (.parsed (.obj kvs)) =
      fallbackIntent q "LLM service error: Missing required fields in LLM response") ∧
    (∀ kvs, (required_fields.all fun f => hasKey kvs f) = true →
      extract_location_intent q (.parsed (.obj kvs)) = .obj kvs) := by
  refine ⟨fun msg => rfl, fun msg => rfl, ?_, ?_⟩ <;>
    intro kvs hall <;>
      (simp only [extract_location_intent]; rw [allM_pyIn_obj, hall])

/-- Predicate: the decoded value is a JSON object carrying the given field. -/
def jsonHasField (j : Json) (field : String) : Bool :=
  match j with
  | .obj kvs => hasKey kvs field
  | _ => false

/-- C1 counterexample: a decoded reply that is a JSON array whose elements
are the four required field names passes the `all(field in extracted_data)`
check by Python list membership and is returned unchanged, although it is
not an intent object at all (it has no formatted_query field), so the
claimed fallback is not returned. -/
theorem claim_C1_counterexample :
    extract_location_intent "q"
        (.parsed (.arr [.str "search_term", .str "location",
          .str "query_type", .str "formatted_query"])) =
      .arr [.str "search_term", .str "location",
        .str "query_type", .str "formatted_query"] ∧
    jsonHasField
        (extract_location_intent "q"
          (.parsed (.arr [.str "search_term", .str "location",
            .str "query_type", .str "formatted_query"])))
        "formatted_query" = false := by
  exact ⟨rfl, rfl⟩

/-- Splits a successful search_locations run into its two response shapes. -/
lemma search_locations_ok_cases (s : Settings) (q : String) (u : Option Coord)
    (llm : LLMReply) (maps : HttpOutcome PlacesData) (resp : LocationResponse)
    (h : search_locations s q u llm maps = .ok resp) :
    ∃ locations, search_places s u maps = .ok locations ∧
      ((locations = [] ∧ resp =
        { success := false, message := "No locations found for your query",
          locations := [],
          extracted_info := some (extract_location_intent q llm),
          map_center := u, search_radius := none }) ∨
       (locations ≠ [] ∧ resp =
        { success := true,
          message := "Found " ++ toString locations.length ++ " location(s)",
          locations := locations,
          extracted_info := some (extract_location_intent q llm),
          map_center := some (meanCenter locations),
          search_radius := some s.MAPS_SEARCH_RADIUS })) := by
  cases hpg : pyGet (extract_location_intent q llm) "formatted_query" (.str q) with
  | error e => simp [search_locations, hpg] at h
  | ok fq =>
    cases hsp : search_places s u maps with
    | error e => simp [search_locations, hpg, hsp] at h
    | ok locations =>
      refine ⟨locations, rfl, ?_⟩
      cases hemp : locations.isEmpty with
      | true =>
        simp only [search_locations, hpg, hsp, hemp, if_true] at h
        injection h with h
        exact Or.inl ⟨List.isEmpty_iff.mp hemp, h.symm⟩
      | false =>
        simp only [search_locations, hpg, hsp, hemp, Bool.false_eq_true,
          if_false] at h
        injection h with h
        refine Or.inr ⟨?_, h.symm⟩
        intro hnil
        rw [hnil] at hemp
        simp at hemp

/-- C3: every LocationResponse produced by the /search body has success true
exactly when its locations list is non-empty, and carries the configured
search radius exactly on success. -/
theorem claim_C3_success_iff_nonempty (s : Settings) (q : String)
    (u : Option Coord) (llm : LLMReply) (maps : HttpOutcome PlacesData)
    (resp : LocationResponse)
    (h : search_locations s q u llm maps = .ok resp) :
    (resp.success = true ↔ resp.locations ≠ []) ∧
    (resp.success = true → resp.search_radius = some s.MAPS_SEARCH_RADIUS) ∧
    (resp.success = false → resp.search_radius = none) := by
  obtain ⟨locations, hsp, hc | hc⟩ := search_locations_ok_cases s q u llm maps resp h
  · obtain ⟨hnil, hresp⟩ := hc
    subst hresp
    simp
  · obtain ⟨hnil, hresp⟩ := hc
    subst hresp
    simp [hnil]

/-- C4: the map center of a /search response is the arithmetic mean of the
returned coordinates (equal weight, invariant under permutation of the
results) when any location was returned; with no locations it is the
supplied user location, and absent when none was supplied. -/
theorem claim_C4_map_center (s : Settings) (q : String)
    (u : Option Coord) (llm : LLMReply) (maps : HttpOutcome PlacesData)
    (resp : LocationResponse)
    (h : search_locations s q u llm maps = .ok resp) :
    (resp.locations ≠ [] → resp.map_center = some (meanCenter resp.locations)) ∧
    (∀ l2 : List LocationInfo, l2.Perm resp.locations → resp.locations ≠ [] →
      resp.map_center = some (meanCenter l2)) ∧
    (resp.locations = [] → ∀ u0 : Coord, u = some u0 → resp.map_center = some u0) ∧
    (resp.locations = [] → u = none → resp.map_center = none) := by
  have hperm : ∀ l2 : List LocationInfo, l2.Perm resp.locations →
      meanCenter l2 = meanCenter resp.locations := by
    intro l2 hp
    simp only [meanCenter]
    rw [(hp.map LocationInfo.lat).sum_eq, (hp.map LocationInfo.lng).sum_eq,
      hp.length_eq]
  obtain ⟨locations, hsp, hc | hc⟩ := search_locations_ok_cases s q u llm maps resp h
  · obtain ⟨hnil, hresp⟩ := hc
    subst hresp
    refine ⟨by simp, by simp, ?_, ?_⟩
    · intro _ u0 hu
      simpa using hu
    · intro _ hu
      simpa using hu
  · obtain ⟨hnil, hresp⟩ := hc
    subst hresp
    refine ⟨fun _ => rfl, ?_, by simp [hnil], by simp [hnil]⟩
    intro l2 hp _
    simp only [Option.some.injEq]
    exact (hperm l2 hp).symm

/-- C9 (amended): the text surfaced to a /search caller is independent of
the configured provider API key — two configurations differing only in the
key produce the identical message for the same environment behavior, so the
pipeline itself never writes the key into a message. (The underlying
exception text is passed through verbatim, so a transport-layer message
that itself embeds the key does reach the caller; see the counterexample.) -/
theorem claim_C9_key_noninterference (key1 key2 : String)
    (maxN : Nat) (radius : Int) (q : String) (u : Option Coord)
    (llm : LLMReply) (maps : HttpOutcome PlacesData) :
    surfaced_message ⟨key1, maxN, radius⟩ q u llm maps =
      surfaced_message ⟨key2, maxN, radius⟩ q u llm maps := rfl

/-- C9 counterexample: the /search boundary surfaces the underlying
exception text verbatim, so a transport error message that contains the
API key (as an httpx status error for the request URL does) is delivered to
the caller: the claim that the message never contains the key fails. -/
theorem claim_C9_counterexample :
    search_locations ⟨"KEY123", 5, 50000⟩ "q" none (.netError "down")
        (.exc "403 Forbidden for url maps api with key=KEY123") =
      .error "Error processing your request: Error searching places: 403 Forbidden for url maps api with key=KEY123" ∧
    strHasSub
      "Error processing your request: Error searching places: 403 Forbidden for url maps api with key=KEY123"
      "KEY123" = true := ⟨rfl, rfl⟩

/-! ### Concrete sample data for the witnesses -/

/-- A raw provider place with a coordinate, a name, and nothing else. -/
def samplePlaceN (nm : String) (la lg : ℚ) : RawPlace :=
  ⟨some ⟨la, lg⟩, some nm, none, none, none, none, none, none, none⟩

/-- A raw provider place lacking its geometry coordinate. -/
def samplePlaceNoGeo : RawPlace :=
  ⟨none, some "B", none, none, none, none, none, none, none⟩

/-- The LocationRecord produced from `samplePlaceN nm la lg` with no user
location supplied. -/
def sampleLoc (nm : String) (la lg : ℚ) : LocationInfo :=
  ⟨nm, "Address not available", "", none, _generate_maps_url "" la lg,
    la, lg, none, none, none, none, none⟩

/-- The LocationRecord produced from `samplePlaceN "A" 1 1` with user
location (0, 0) supplied. -/
noncomputable def sampleLocD : LocationInfo :=
  ⟨"A", "Address not available", "", none, _generate_maps_url "" 1 1, 1, 1,
    some (_calculate_distance ((0 : ℚ) : ℝ) ((0 : ℚ) : ℝ) ((1 : ℚ) : ℝ) ((1 : ℚ) : ℝ)),
    none, none, none, none⟩

/-- The /search response for a healthy provider returning no results, with
the model unreachable and no user location. -/
def sampleRespEmpty : LocationResponse :=
  ⟨false, "No locations found for your query", [],
    some (fallbackIntent "q" "LLM service error: down"), none, none⟩

/-- The /search response for a healthy provider returning the two locations
(0,0) and (0,2), with the model unreachable and no user location. -/
def sampleRespTwo : LocationResponse :=
  ⟨true, "Found 2 location(s)", [sampleLoc "A" 0 0, sampleLoc "B" 0 2],
    some (fallbackIntent "q" "LLM service error: down"),
    some (meanCenter [sampleLoc "A" 0 0, sampleLoc "B" 0 2]), some 50000⟩

/-! ### Witnesses -/

/-- C1 witness: a provider error and an object reply missing three of the
four required fields both yield exactly the fallback intent. -/
theorem claim_C1_extract_fallback_witness :
    extract_location_intent "pizza near me" (.netError "connection refused") =
      fallbackIntent "pizza near me" "LLM service error: connection refused" ∧
    extract_location_intent "pizza near me"
        (.parsed (.obj [("search_term", .str "pizza")])) =
      fallbackIntent "pizza near me"
        "LLM service error: Missing required fields in LLM response" := by
  have h := claim_C1_extract_fallback "pizza near me"
  exact ⟨h.1 "connection refused",
    h.2.2.1 [("search_term", .str "pizza")] (by decide)⟩

/-- C2 witness: a non-OK status yields success=false with the status in the
message, and a one-leg route yields success=true with that leg's texts. -/
theorem claim_C2_get_directions_witness :
    (get_directions (.body ⟨"ZERO_RESULTS", none⟩)).success = false ∧
    strHasSub (get_directions (.body ⟨"ZERO_RESULTS", none⟩)).message
      "ZERO_RESULTS" = true ∧
    (get_directions
      (.body ⟨"OK", some [⟨[⟨⟨"5 mins"⟩, ⟨"2 km"⟩⟩]⟩]⟩)).success = true ∧
    (get_directions
      (.body ⟨"OK", some [⟨[⟨⟨"5 mins"⟩, ⟨"2 km"⟩⟩]⟩]⟩)).duration = some "5 mins" := by
  have h1 := claim_C2_get_directions.2.1 ⟨"ZERO_RESULTS", none⟩ (by decide)
  have h2 := claim_C2_get_directions.2.2.2.1
    ⟨"OK", some [⟨[⟨⟨"5 mins"⟩, ⟨"2 km"⟩⟩]⟩]⟩ ⟨[⟨⟨"5 mins"⟩, ⟨"2 km"⟩⟩]⟩ []
    ⟨⟨"5 mins"⟩, ⟨"2 km"⟩⟩ [] rfl rfl rfl
  exact ⟨h1.1, h1.2, h2.1, h2.2.1⟩

/-- C3 witness: the zero-result run yields success=false with no search
radius, matching the non-emptiness equivalence. -/
theorem claim_C3_success_iff_nonempty_witness :
    (sampleRespEmpty.success = true ↔ sampleRespEmpty.locations ≠ []) ∧
    sampleRespEmpty.search_radius = none := by
  have h := claim_C3_success_iff_nonempty ⟨"APIKEY", 5, 50000⟩ "q" none
    (.netError "down") (.body ⟨"OK", []⟩) sampleRespEmpty rfl
  exact ⟨h.1, h.2.2 rfl⟩

/-- C4 witness: two locations at (0,0) and (0,2) give map center (0,1). -/
theorem claim_C4_map_center_witness :
    sampleRespTwo.map_center = some (⟨0, 1⟩ : Coord) := by
  have h := claim_C4_map_center ⟨"APIKEY", 5, 50000⟩ "q" none (.netError "down")
    (.body ⟨"OK", [samplePlaceN "A" 0 0, samplePlaceN "B" 0 2]⟩)
    sampleRespTwo rfl
  have h2 := h.1 (by simp [sampleRespTwo])
  refine h2.trans ?_
  norm_num [sampleRespTwo, meanCenter, sampleLoc]

/-- C5 witness: with cap 2 and three provider results, exactly two records
come back. -/
theorem claim_C5_cap_and_order_witness :
    ([sampleLoc "A" 0 0, sampleLoc "B" 0 2] : List LocationInfo).length ≤ 2 ∧
    ([sampleLoc "A" 0 0, sampleLoc "B" 0 2] : List LocationInfo).length = 2 := by
  have h := claim_C5_cap_and_order ⟨"APIKEY", 2, 50000⟩ none
    ⟨"OK", [samplePlaceN "A" 0 0, samplePlaceN "B" 0 2, samplePlaceN "C" 5 5]⟩
    [sampleLoc "A" 0 0, sampleLoc "B" 0 2] rfl
  exact ⟨h.1, h.2.2.1 (by decide)⟩

/-- C6 witness: with user location (0,0) the single returned record carries
the Haversine distance to its coordinate (1,1). -/
theorem claim_C6_distance_witness :
    sampleLocD.distance =
      some (_calculate_distance ((0 : ℚ) : ℝ) ((0 : ℚ) : ℝ)
        ((1 : ℚ) : ℝ) ((1 : ℚ) : ℝ)) := by
  have h := claim_C6_distance_iff_user_location ⟨"APIKEY", 5, 50000⟩
    (some ⟨0, 0⟩) ⟨"OK", [samplePlaceN "A" 1 1]⟩ [sampleLocD] rfl
  exact h.1 ⟨0, 0⟩ rfl sampleLocD (List.Mem.head _)

/-- C7 witness: the two URL shapes at concrete inputs. -/
theorem claim_C7_maps_url_witness :
    _generate_maps_url "abc123" 1 2 =
      "https://www.google.com/maps/place/?q=place_id:abc123" ∧
    _generate_maps_url "" 1 2 = "https://www.google.com/maps/@1,2,15z" := by
  constructor
  · exact (claim_C7_maps_url "abc123" 1 2).1 (by decide)
  · exact (claim_C7_maps_url "" 1 2).2 rfl

/-- C10 witness: a batch whose second place lacks geometry makes the whole
call fail with the aggregated error. -/
theorem claim_C10_no_partial_results_witness :
    search_places ⟨"APIKEY", 5, 50000⟩ none
        (.body ⟨"OK", [samplePlaceN "A" 1 2, samplePlaceNoGeo]⟩) =
      .error ("Error searching places: " ++ "KeyError: geometry") := by
  exact claim_C10_no_partial_results ⟨"APIKEY", 5, 50000⟩ none
    ⟨"OK", [samplePlaceN "A" 1 2, samplePlaceNoGeo]⟩ samplePlaceNoGeo rfl
    (by show samplePlaceNoGeo ∈ [samplePlaceN "A" 1 2, samplePlaceNoGeo]
        exact List.Mem.tail _ (List.Mem.head _)) rfl
